import Mathlib

/-!
Verification of the Ticket-Backend repository's core: the ticket ledger
(`src/models/ticket.js`, `src/routes/tickets.js`) and the admission /
approval handlers (`src/routes/admin.js`, second revision of the router;
the first revision is embedded separately where a claim refers to it).

JavaScript numbers are modelled as `Int` (all arithmetic in the core is
small-integer arithmetic), timestamps as `Nat`, `parseInt` results as
`Option Int` (`none` = `NaN`), and JS `null`/`undefined` string fields as
`Option String`.
-/

namespace TicketBackend

/-- `status` column: ENUM("pending", "approved", "cancelled", "checkedin")
in `src/models/ticket.js`. -/
inductive TicketStatus
  | pending
  | approved
  | cancelled
  | checkedin
  deriving Repr, DecidableEq

/-- `ticketType` column: ENUM("normal", "vip") in `src/models/ticket.js`. -/
inductive TicketType
  | normal
  | vip
  deriving Repr, DecidableEq

/-- One row of the `tickets` table, fields as declared in
`src/models/ticket.js` (plus the `createdAt`/`updatedAt` timestamps that
sequelize adds and `sanitizeTicket` mentions). -/
structure Ticket where
  id : String
  ticketNumber : Int
  name : String
  email : String
  phone : String
  ticketType : TicketType
  quantity : Int
  unitPrice : Int
  price : Int
  remaining : Int
  scanCount : Int
  status : TicketStatus
  emailSent : Bool
  sentAt : Option Nat
  token : String
  vipSeats : Int
  qrImageUrl : Option String
  whatsappSent : Bool
  lastScanAt : Option Nat
  finalImageUrl : Option String
  eventKey : String
  createdAt : Option Nat
  updatedAt : Option Nat
  deriving Repr, DecidableEq

/-- A ticket with every field zeroed; used only to name concrete
creation results. -/
def defaultTicket : Ticket :=
  { id := "", ticketNumber := 0, name := "", email := "", phone := "",
    ticketType := .normal, quantity := 0, unitPrice := 0, price := 0,
    remaining := 0, scanCount := 0, status := .pending, emailSent := false,
    sentAt := none, token := "", vipSeats := 0, qrImageUrl := none,
    whatsappSent := false, lastScanAt := none, finalImageUrl := none,
    eventKey := "", createdAt := none, updatedAt := none }

/-- `sanitizeTicket` output (`src/models/ticket.js` lines 140-149): the
plain ticket object with the `token` key destructured away; `createdAt`
and `updatedAt` are re-added. -/
structure SanitizedTicket where
  id : String
  ticketNumber : Int
  name : String
  email : String
  phone : String
  ticketType : TicketType
  quantity : Int
  unitPrice : Int
  price : Int
  remaining : Int
  scanCount : Int
  status : TicketStatus
  emailSent : Bool
  sentAt : Option Nat
  vipSeats : Int
  qrImageUrl : Option String
  whatsappSent : Bool
  lastScanAt : Option Nat
  finalImageUrl : Option String
  eventKey : String
  createdAt : Option Nat
  updatedAt : Option Nat
  deriving Repr, DecidableEq

/-- `sanitizeTicket` (`src/models/ticket.js`): drops `token`, keeps every
other field including `createdAt`/`updatedAt`. -/
def sanitizeTicket (t : Ticket) : SanitizedTicket :=
  { id := t.id, ticketNumber := t.ticketNumber, name := t.name,
    email := t.email, phone := t.phone, ticketType := t.ticketType,
    quantity := t.quantity, unitPrice := t.unitPrice, price := t.price,
    remaining := t.remaining, scanCount := t.scanCount, status := t.status,
    emailSent := t.emailSent, sentAt := t.sentAt, vipSeats := t.vipSeats,
    qrImageUrl := t.qrImageUrl, whatsappSent := t.whatsappSent,
    lastScanAt := t.lastScanAt, finalImageUrl := t.finalImageUrl,
    eventKey := t.eventKey, createdAt := t.createdAt,
    updatedAt := t.updatedAt }

/-! ## Ticket creation (`src/routes/tickets.js`) -/

/-- Request body of `POST /api/tickets` as the handler reads it.
`ticketType` is `none` when absent or not a string; `quantity` is the
result of `parseInt(body.quantity, 10)` with `none` for `NaN`. -/
structure TicketBody where
  name : String
  email : String
  phone : String
  ticketType : Option String
  quantity : Option Int
  deriving Repr, DecidableEq

/-- Environment of a creation call: the fresh `uuidv4()` token, the
DB-assigned id and ticket number, today's date (encoded `yyyymmdd`, the
date-only normalisation of `new Date()`), and `process.env.EVENT_KEY ||
"default"`. -/
structure CreateEnv where
  token : String
  id : String
  ticketNumber : Int
  today : Nat
  eventKey : String
  deriving Repr, DecidableEq

/-- Start of the pricing range in `calculatePrice` (2025-12-02),
date-only, encoded `yyyymmdd`. -/
def priceRangeStart : Nat := 20251202

/-- End of the pricing range in `calculatePrice` (2025-12-25). -/
def priceRangeEnd : Nat := 20251225

/-- `calculatePrice` (`src/routes/tickets.js`): inside the range the
price is 400; the fallback outside the range is also 400. -/
def calculatePrice (today : Nat) : Int :=
  if priceRangeStart ≤ today ∧ today ≤ priceRangeEnd then 400 else 400

/-- Result record of `normalizeTicketInput`: either the `{ error }`
object or the normalized field set. The VIP branch omits `eventKey`; the
normal branch sets it, hence the `Option`. -/
structure NormalizedInput where
  token : String
  name : String
  email : String
  phone : String
  ticketType : TicketType
  quantity : Int
  unitPrice : Int
  price : Int
  remaining : Int
  vipSeats : Int
  eventKey : Option String
  deriving Repr, DecidableEq

/-- JS `String.prototype.toLowerCase`, character-wise. -/
def jsToLower (s : String) : String :=
  String.mk (s.data.map Char.toLower)

/-- `normalizedType` computation of `normalizeTicketInput`:
`typeof ticketType === "string" && ticketType.toLowerCase() === "vip"
? "vip" : "normal"`. -/
def normalizeType (ticketType : Option String) : TicketType :=
  match ticketType with
  | some s => if jsToLower s = "vip" then .vip else .normal
  | none => .normal

/-- `normalizeTicketInput` (`src/routes/tickets.js` lines 28-77).
The VIP branch fixes `quantity := 1`, `remaining := 5`, `vipSeats := 5`
and a flat price of 10000; the normal branch defaults a missing or
non-positive quantity to 1 and prices it from `calculatePrice`. -/
def normalizeTicketInput (env : CreateEnv) (body : TicketBody) :
    Except String NormalizedInput :=
  let normalizedType : TicketType := normalizeType body.ticketType
  if body.name = "" ∨ body.email = "" ∨ body.phone = "" then
    .error "Name, email and phone are required"
  else if normalizedType = .vip then
    .ok { token := env.token, name := body.name, email := body.email,
          phone := body.phone, ticketType := .vip, quantity := 1,
          unitPrice := 10000, price := 10000, remaining := 5,
          vipSeats := 5, eventKey := none }
  else
    let quantity : Int :=
      match body.quantity with
      | some q => if q < 1 then 1 else q
      | none => 1
    let unitPrice := calculatePrice env.today
    .ok { token := env.token, name := body.name, email := body.email,
          phone := body.phone, ticketType := .normal, quantity := quantity,
          unitPrice := unitPrice, price := unitPrice * quantity,
          remaining := quantity, vipSeats := 0,
          eventKey := some env.eventKey }

/-- `POST /api/tickets` handler body (`src/routes/tickets.js` lines
80-105): `Ticket.create({...normalized, scanCount: 0, status: "pending",
emailSent: false, sentAt: null, eventKey: EVENT_KEY})`. -/
def createTicket (env : CreateEnv) (body : TicketBody) :
    Except String Ticket :=
  match normalizeTicketInput env body with
  | .error e => .error e
  | .ok n =>
      .ok { id := env.id, ticketNumber := env.ticketNumber,
            name := n.name, email := n.email, phone := n.phone,
            ticketType := n.ticketType, quantity := n.quantity,
            unitPrice := n.unitPrice, price := n.price,
            remaining := n.remaining, scanCount := 0, status := .pending,
            emailSent := false, sentAt := none, token := n.token,
            vipSeats := n.vipSeats, qrImageUrl := none,
            whatsappSent := false, lastScanAt := none,
            finalImageUrl := none, eventKey := env.eventKey,
            createdAt := some env.today, updatedAt := some env.today }

/-! ## Admission (`POST /api/admin/verify`, `src/routes/admin.js`,
second revision, lines 974-1087) -/

/-- Outcome of the admin path of the verify handler; each constructor is
one of the handler's `res.json` shapes (the route additionally attaches
`buildSanitizedTicketWithQr ticket` to each of these responses). -/
inductive AdminVerifyOutcome
  | cancelled (message : String)
  | noRemaining (message : String)
  | awaitingCount (message : String)
  | checkedIn (message : String) (entered : Int)
  deriving Repr, DecidableEq

/-- `parseInt(count, 10)` followed by the handler's validity test
`!Number.isInteger(checkInCount) || checkInCount <= 0`: `none` when no
valid positive integer count was supplied. -/
def parseCount (count : Option Int) : Option Int :=
  match count with
  | some n => if n ≤ 0 then none else some n
  | none => none

/-- `no_remaining` message: mentions `lastScanAt` when known
(`toLocaleString` is modelled as decimal rendering of the timestamp). -/
def noRemainingMessage (t : Ticket) : String :=
  match t.lastScanAt with
  | some ts =>
      "Ticket already scanned — no people remaining. Last scan time: " ++
        toString ts ++ "."
  | none => "Ticket already scanned — no people remaining."

/-- `awaiting_count` message, depending on `alreadyScanned`
(`ticket.scanCount > 0`). -/
def awaitingMessage (t : Ticket) : String :=
  if t.scanCount > 0 then
    "Already scanned. People remaining: " ++ toString t.remaining
  else "Enter number of people to check in."

/-- Message built after the counter update, from the pre-update
`originalRemaining`, the applied `checkInCount` and the new
`remaining`. -/
def scanMessage (originalRemaining checkInCount newRemaining : Int) :
    String :=
  if originalRemaining = 1 then
    "Ticket scanned successfully. Let 1 person enter."
  else if checkInCount < originalRemaining then
    "Enter only " ++ toString checkInCount ++
      " people — ticket scanned successfully."
  else if newRemaining = 0 then
    "Ticket scanned successfully. No people remaining."
  else
    toString checkInCount ++ " people entered. " ++
      toString newRemaining ++ " remaining."

/-- The handler's mutation tail, applied once a count `n` has been
resolved: clamp to `remaining`, stamp `lastScanAt`, decrement
`remaining`, increment `scanCount`, flip the status to `checkedin` when
`remaining` hits 0, and answer `checked_in` with the applied count. -/
def clampAndCheckIn (t : Ticket) (n : Int) (now : Nat) :
    AdminVerifyOutcome × Ticket :=
  let checkInCount := if n > t.remaining then t.remaining else n
  let originalRemaining := t.remaining
  let newRemaining := t.remaining - checkInCount
  let t' : Ticket :=
    { t with lastScanAt := some now,
             remaining := newRemaining,
             scanCount := t.scanCount + checkInCount,
             status := if newRemaining = 0 then .checkedin else t.status }
  (.checkedIn (scanMessage originalRemaining checkInCount newRemaining)
     checkInCount, t')

/-- Admin path of the verify handler on a found ticket: guards in source
order (`cancelled`, then `remaining <= 0`, then count resolution with the
`remaining == 1` default), then the counter update. The second component
is `some t'` exactly when the handler reaches `ticket.save()`; `none`
means an early return with no mutation. -/
def adminVerify (t : Ticket) (count : Option Int) (now : Nat) :
    AdminVerifyOutcome × Option Ticket :=
  if t.status = .cancelled then
    (.cancelled "Ticket is cancelled. Entry not permitted.", none)
  else if t.remaining ≤ 0 then
    (.noRemaining (noRemainingMessage t), none)
  else
    match parseCount count with
    | none =>
        if t.remaining = 1 then
          let r := clampAndCheckIn t 1 now
          (r.1, some r.2)
        else (.awaitingCount (awaitingMessage t), none)
    | some n =>
        let r := clampAndCheckIn t n now
        (r.1, some r.2)

/-- Full response of `POST /api/admin/verify` (second revision):
non-admin callers only ever get the plain-text redirect body; admin
callers get the JSON shapes. -/
inductive VerifyResponse
  | plainText (body : String)
  | tokenRequired
  | invalidQR
  | admin (outcome : AdminVerifyOutcome)
  deriving Repr, DecidableEq

/-- JS truthiness of an optional string (`undefined`, `null` and `""`
are falsy). -/
def strTruthy : Option String → Bool
  | some s => s ≠ ""
  | none => false

/-- `findTicketByToken` (`src/models/ticket.js` lines 121-127): exact
token match, with an `eventKey` filter added only when `eventKey` is
truthy. -/
def findTicketByToken (store : List Ticket) (token : String)
    (eventKey : Option String) : Option Ticket :=
  store.find? fun t =>
    t.token = token &&
      (match eventKey with
       | some k => if k = "" then true else t.eventKey = k
       | none => true)

/-- `ticket.save()`: persist the mutated row back into the store by
primary key. -/
def saveTicket (store : List Ticket) (t : Ticket) : List Ticket :=
  store.map fun u => if u.id = t.id then t else u

/-- The `POST /api/admin/verify` handler (second revision, lines
974-1087), as a function of the caller's admin payload (`isAdmin`,
`adminEventKey`), the request body, the clock and the ticket store. -/
def verifyHandler (isAdmin : Bool) (adminEventKey : Option String)
    (tokenOpt : Option String) (count : Option Int) (now : Nat)
    (store : List Ticket) : VerifyResponse × List Ticket :=
  if ¬ strTruthy tokenOpt then
    if ¬ isAdmin then (.plainText "https://sindhulibazar.com/", store)
    else (.tokenRequired, store)
  else
    match findTicketByToken store (tokenOpt.getD "")
        (if isAdmin then adminEventKey else none) with
    | none =>
        if ¬ isAdmin then (.plainText "https://sindhulibazar.com/", store)
        else (.invalidQR, store)
    | some t =>
        if ¬ isAdmin then (.plainText "https://sindhulibazar.com/", store)
        else
          match adminVerify t count now with
          | (o, some t') => (.admin o, saveTicket store t')
          | (o, none) => (.admin o, store)

/-! ## Approval and cancellation (`src/routes/admin.js`, second
revision, lines 711-847) -/

/-- Result of `sendTicketEmail`: delivery succeeded, or threw with the
given error message. -/
inductive MailResult
  | sent
  | failed (msg : String)
  deriving Repr, DecidableEq

/-- Response of the approve handler. `ok` carries the response `message`
and the optional `error` field (set to the underlying mail error text
when delivery failed). -/
inductive ApproveResult
  | notFound
  | cancelledGuard
  | alreadyApproved
  | ok (message : String) (error : Option String)
  deriving Repr, DecidableEq

/-- `POST /api/admin/tickets/:id/approve` handler (second revision) on a
found ticket. `r2Upload` is the result of `uploadQRToR2` for the QR
(`none` = threw, handler continues), `finalUpload` the result of
generating and uploading the composited final image (attempted only when
the QR upload succeeded). On mail failure the handler reverts `status`
to `pending` and clears `emailSent`/`sentAt` before saving. -/
def approveTicket (t : Ticket) (adminEventKey : String) (mail : MailResult)
    (r2Upload : Option String) (finalUpload : Option String) (now : Nat) :
    ApproveResult × Ticket :=
  if t.eventKey ≠ "" ∧ t.eventKey ≠ adminEventKey then (.notFound, t)
  else if t.status = .cancelled then (.cancelledGuard, t)
  else if t.status = .approved then (.alreadyApproved, t)
  else
    let t1 : Ticket :=
      match r2Upload with
      | some url => { t with qrImageUrl := some url }
      | none => t
    let t2 : Ticket :=
      match r2Upload, finalUpload with
      | some _, some furl => { t1 with finalImageUrl := some furl }
      | _, _ => t1
    match mail with
    | .sent =>
        (.ok "Ticket approved and email sent" none,
         { t2 with emailSent := true, sentAt := some now,
                   status := .approved })
    | .failed msg =>
        (.ok "Email failed to send — ticket returned to pending"
           (some msg),
         { t2 with emailSent := false, sentAt := none,
                   status := .pending })

/-- Response of the cancel handler. -/
inductive CancelResult
  | notFound
  | ok
  deriving Repr, DecidableEq

/-- `POST /api/admin/tickets/:id/cancel` handler (second revision) on a
found ticket: after the eventKey scope check it unconditionally sets
`status := cancelled` and saves. -/
def cancelTicket (t : Ticket) (adminEventKey : String) :
    CancelResult × Ticket :=
  if t.eventKey ≠ "" ∧ t.eventKey ≠ adminEventKey then (.notFound, t)
  else (.ok, { t with status := .cancelled })

/-! ## Operation sequences over one ticket -/

/-- One state-mutating admin operation on a single ticket, with the
environment each handler reads. -/
inductive TicketOp
  | approve (adminEventKey : String) (mail : MailResult)
      (r2Upload : Option String) (finalUpload : Option String) (now : Nat)
  | cancel (adminEventKey : String)
  | scan (count : Option Int) (now : Nat)
  deriving Repr, DecidableEq

/-- State effect of one operation on the ticket row (the row is
unchanged when the handler returns before `save`). -/
def applyOp (t : Ticket) (op : TicketOp) : Ticket :=
  match op with
  | .approve k mail r2 fi now => (approveTicket t k mail r2 fi now).2
  | .cancel k => (cancelTicket t k).2
  | .scan c now => ((adminVerify t c now).2).getD t

/-! ## Concrete fixtures -/

/-- A concrete creation environment. -/
def sampleEnv : CreateEnv :=
  { token := "tok-1", id := "id-1", ticketNumber := 5001,
    today := 20251210, eventKey := "default" }

/-- A concrete VIP purchase request asking for quantity 3. -/
def vipRequestBody : TicketBody :=
  { name := "Asha", email := "asha@example.com", phone := "9812345678",
    ticketType := some "VIP", quantity := some 3 }

/-- The ticket row produced by creating `vipRequestBody`. -/
def vipCreated : Ticket :=
  (createTicket sampleEnv vipRequestBody).toOption.getD defaultTicket

/-- A concrete normal purchase request for quantity 3. -/
def normalRequestBody : TicketBody :=
  { name := "Bina", email := "bina@example.com", phone := "9800000000",
    ticketType := none, quantity := some 3 }

/-- The ticket row produced by creating `normalRequestBody`:
`pending`, `quantity = remaining = 3`, `scanCount = 0`. -/
def normalCreated : Ticket :=
  (createTicket sampleEnv normalRequestBody).toOption.getD defaultTicket

/-! ## Claims -/

/-- Claim C10: `sanitizeTicket` has no `token` field and its output does
not depend on the ticket's token: two tickets differing only in `token`
sanitize to identical objects. -/
theorem sanitizeTicket_token_independent :
    ∀ (t : Ticket) (s : String),
      sanitizeTicket { t with token := s } = sanitizeTicket t :=
  fun _ _ => rfl

/-- Claim C9: every unauthenticated call of the verify handler (second
revision) gets the same static plain-text body, whether the token is
missing, unknown, or resolves to a ticket in any state, and the store is
left untouched; hence two runs differing only in ticket state produce
identical non-admin responses. -/
theorem nonadmin_verify_constant_response (adminEventKey : Option String)
    (tokenOpt : Option String) (count : Option Int) (now : Nat)
    (store : List Ticket) :
    verifyHandler false adminEventKey tokenOpt count now store =
      (.plainText "https://sindhulibazar.com/", store) := by
  unfold verifyHandler
  split
  · simp
  · cases findTicketByToken store (tokenOpt.getD "")
        (if false = true then adminEventKey else none) <;> simp

/-- Claim C7 (counterexample): the VIP creation of `vipRequestBody`
yields `quantity = 1`, not the party size 5 (nor 8). -/
theorem vip_quantity_not_party_size :
    createTicket sampleEnv vipRequestBody = .ok vipCreated ∧
    vipCreated.quantity = 1 ∧
    vipCreated.quantity ≠ 5 ∧ vipCreated.quantity ≠ 8 := by
  refine ⟨rfl, by decide, by decide, by decide⟩

/-- Claim C7 (amended): creating a VIP ticket always yields
`quantity = 1`, `remaining` and `vipSeats` equal to the fixed party size
5, and `unitPrice` and `price` both equal to the flat VIP price 10000,
regardless of any quantity requested in the input. -/
theorem vip_create_fixed_fields (env : CreateEnv) (body : TicketBody)
    (hvip : normalizeType body.ticketType = .vip)
    (hname : body.name ≠ "") (hemail : body.email ≠ "")
    (hphone : body.phone ≠ "") :
    ∃ t, createTicket env body = .ok t ∧ t.ticketType = .vip ∧
      t.quantity = 1 ∧ t.remaining = 5 ∧ t.vipSeats = 5 ∧
      t.unitPrice = 10000 ∧ t.price = 10000 := by
  have h : createTicket env body =
      .ok { id := env.id, ticketNumber := env.ticketNumber,
            name := body.name, email := body.email, phone := body.phone,
            ticketType := .vip, quantity := 1, unitPrice := 10000,
            price := 10000, remaining := 5, scanCount := 0,
            status := .pending, emailSent := false, sentAt := none,
            token := env.token, vipSeats := 5, qrImageUrl := none,
            whatsappSent := false, lastScanAt := none,
            finalImageUrl := none, eventKey := env.eventKey,
            createdAt := some env.today, updatedAt := some env.today } := by
    simp only [createTicket, normalizeTicketInput]
    rw [if_neg (by simp [hname, hemail, hphone]), if_pos hvip]
  exact ⟨_, h, rfl, rfl, rfl, rfl, rfl, rfl⟩

/-- Claim C7 (witness for the amended theorem), at `vipRequestBody`. -/
theorem vip_create_fixed_fields_witness :
    ∃ t, createTicket sampleEnv vipRequestBody = .ok t ∧
      t.ticketType = .vip ∧ t.quantity = 1 ∧ t.remaining = 5 ∧
      t.vipSeats = 5 ∧ t.unitPrice = 10000 ∧ t.price = 10000 :=
  vip_create_fixed_fields sampleEnv vipRequestBody (by decide)
    (by decide) (by decide) (by decide)

/-- Claim C2: when email delivery fails during approval (second
revision), the handler answers with the rollback message and the
underlying error text, and the saved ticket has `status = pending`,
`emailSent = false`, `sentAt = null`. -/
theorem approve_mail_failure_rolls_back (t : Ticket) (k : String)
    (msg : String) (r2 fi : Option String) (now : Nat)
    (hscope : ¬ (t.eventKey ≠ "" ∧ t.eventKey ≠ k))
    (hc : t.status ≠ .cancelled) (ha : t.status ≠ .approved) :
    (approveTicket t k (.failed msg) r2 fi now).1 =
      .ok "Email failed to send — ticket returned to pending" (some msg) ∧
    (approveTicket t k (.failed msg) r2 fi now).2.status = .pending ∧
    (approveTicket t k (.failed msg) r2 fi now).2.emailSent = false ∧
    (approveTicket t k (.failed msg) r2 fi now).2.sentAt = none := by
  unfold approveTicket
  rw [if_neg hscope, if_neg hc, if_neg ha]
  cases r2 <;> cases fi <;> simp

/-- Claim C2 (witness): approving `normalCreated` with a failing
delivery. -/
theorem approve_mail_failure_rolls_back_witness :
    (approveTicket normalCreated "default" (.failed "smtp down")
        (some "https://r2/qr.png") none 99).1 =
      .ok "Email failed to send — ticket returned to pending"
        (some "smtp down") ∧
    (approveTicket normalCreated "default" (.failed "smtp down")
        (some "https://r2/qr.png") none 99).2.status = .pending ∧
    (approveTicket normalCreated "default" (.failed "smtp down")
        (some "https://r2/qr.png") none 99).2.emailSent = false ∧
    (approveTicket normalCreated "default" (.failed "smtp down")
        (some "https://r2/qr.png") none 99).2.sentAt = none :=
  approve_mail_failure_rolls_back normalCreated "default" "smtp down"
    (some "https://r2/qr.png") none 99 (by decide) (by decide) (by decide)

/-- Claim C8: cancelling a pending in-scope ticket sets its status to
`cancelled` without touching the counters, and every subsequent admit
call on it is rejected with the `cancelled` outcome and no save. -/
theorem cancel_then_admit_rejected (t : Ticket) (k : String)
    (_hp : t.status = .pending)
    (hscope : ¬ (t.eventKey ≠ "" ∧ t.eventKey ≠ k)) :
    (cancelTicket t k).1 = .ok ∧
    ((cancelTicket t k).2).status = .cancelled ∧
    ((cancelTicket t k).2).remaining = t.remaining ∧
    ((cancelTicket t k).2).scanCount = t.scanCount ∧
    ∀ (c : Option Int) (now : Nat),
      adminVerify (cancelTicket t k).2 c now =
        (.cancelled "Ticket is cancelled. Entry not permitted.", none) := by
  unfold cancelTicket
  rw [if_neg hscope]
  refine ⟨rfl, rfl, rfl, rfl, fun c now => ?_⟩
  unfold adminVerify
  simp

/-- Claim C8 (witness): cancelling `normalCreated`, then admitting with
an explicit count. -/
theorem cancel_then_admit_rejected_witness :
    (cancelTicket normalCreated "default").1 = .ok ∧
    ((cancelTicket normalCreated "default").2).status = .cancelled ∧
    ((cancelTicket normalCreated "default").2).remaining =
      normalCreated.remaining ∧
    ((cancelTicket normalCreated "default").2).scanCount =
      normalCreated.scanCount ∧
    ∀ (c : Option Int) (now : Nat),
      adminVerify (cancelTicket normalCreated "default").2 c now =
        (.cancelled "Ticket is cancelled. Entry not permitted.", none) :=
  cancel_then_admit_rejected normalCreated "default" (by decide) (by decide)

/-- Claim C4: an admit call asking for more than `remaining` is clamped:
the ticket ends with `remaining = 0`, `scanCount` increased by exactly
the old `remaining`, `status = checkedin`, and the `entered` field of
the response carries only the clamped count. -/
theorem scan_clamps_to_remaining (t : Ticket) (n : Int) (now : Nat)
    (hc : t.status ≠ .cancelled) (hr : 0 < t.remaining)
    (hn : t.remaining < n) :
    adminVerify t (some n) now =
      (.checkedIn (scanMessage t.remaining t.remaining 0) t.remaining,
       some { t with lastScanAt := some now, remaining := 0,
                     scanCount := t.scanCount + t.remaining,
                     status := .checkedin }) := by
  unfold adminVerify
  rw [if_neg hc, if_neg (not_le.mpr hr)]
  have hn0 : ¬ n ≤ 0 := by omega
  simp only [parseCount, if_neg hn0]
  unfold clampAndCheckIn
  rw [if_pos hn]
  simp

/-- An approved ticket with two admissions left and one already
scanned. -/
def approvedTwoLeft : Ticket :=
  { normalCreated with
    status := .approved
    remaining := 2
    scanCount := 1 }

/-- Claim C4 (witness): `admit(10)` on a ticket with `remaining = 2`. -/
theorem scan_clamps_to_remaining_witness :
    adminVerify approvedTwoLeft (some 10) 33 =
      (.checkedIn (scanMessage approvedTwoLeft.remaining
          approvedTwoLeft.remaining 0) approvedTwoLeft.remaining,
       some { approvedTwoLeft with
              lastScanAt := some 33
              remaining := 0
              scanCount := approvedTwoLeft.scanCount +
                approvedTwoLeft.remaining
              status := .checkedin }) :=
  scan_clamps_to_remaining approvedTwoLeft 10 33 (by decide) (by decide)
    (by decide)

/-- Claim C5: when the supplied count is not a valid positive integer
and the ticket is admissible, the handler defaults the count to 1 when
`remaining = 1` and proceeds; otherwise it answers `awaiting_count`
without saving anything. -/
theorem scan_invalid_count_resolution (t : Ticket) (c : Option Int)
    (now : Nat) (hc : t.status ≠ .cancelled) (hr : 0 < t.remaining)
    (hinv : parseCount c = none) :
    (t.remaining = 1 →
      adminVerify t c now =
        (.checkedIn "Ticket scanned successfully. Let 1 person enter." 1,
         some { t with lastScanAt := some now, remaining := 0,
                       scanCount := t.scanCount + 1,
                       status := .checkedin })) ∧
    (t.remaining ≠ 1 →
      adminVerify t c now = (.awaitingCount (awaitingMessage t), none)) := by
  constructor
  · intro h1
    unfold adminVerify
    rw [if_neg hc, if_neg (not_le.mpr hr)]
    simp only [hinv, if_pos h1]
    unfold clampAndCheckIn
    rw [if_neg (by omega : ¬ (1 : Int) > t.remaining)]
    simp [h1, scanMessage]
  · intro h1
    unfold adminVerify
    rw [if_neg hc, if_neg (not_le.mpr hr)]
    simp [hinv, h1]

/-- An approved ticket with a single admission left. -/
def approvedOneLeft : Ticket :=
  { normalCreated with
    status := .approved
    remaining := 1
    scanCount := 2 }

/-- Claim C5 (witness): a missing count on an approved ticket with one
seat remaining auto-admits that one person. -/
theorem scan_invalid_count_resolution_witness :
    (approvedOneLeft.remaining = 1 →
      adminVerify approvedOneLeft none 44 =
        (.checkedIn "Ticket scanned successfully. Let 1 person enter." 1,
         some { approvedOneLeft with
                lastScanAt := some 44
                remaining := 0
                scanCount := approvedOneLeft.scanCount + 1
                status := .checkedin })) ∧
    (approvedOneLeft.remaining ≠ 1 →
      adminVerify approvedOneLeft none 44 =
        (.awaitingCount (awaitingMessage approvedOneLeft), none)) :=
  scan_invalid_count_resolution approvedOneLeft none 44 (by decide)
    (by decide) (by decide)

/-- Claim C6 (counterexample): `normalCreated` is still `pending` with
`remaining = 3`, yet the verify handler admits 2 people from it,
decrementing its counters. -/
theorem pending_ticket_scanned_counterexample :
    normalCreated.status = .pending ∧ normalCreated.remaining = 3 ∧
    (adminVerify normalCreated (some 2) 20).1 =
      .checkedIn "Enter only 2 people — ticket scanned successfully." 2 ∧
    ((adminVerify normalCreated (some 2) 20).2.getD normalCreated).scanCount
      = normalCreated.scanCount + 2 ∧
    ((adminVerify normalCreated (some 2) 20).2.getD normalCreated).remaining
      = normalCreated.remaining - 2 := by
  exact ⟨by decide, by decide, by decide, by decide, by decide⟩

/-- Unfolding of `clampAndCheckIn` with its lets expanded. -/
theorem clampAndCheckIn_eq (t : Ticket) (n : Int) (now : Nat) :
    clampAndCheckIn t n now =
      (.checkedIn (scanMessage t.remaining
          (if n > t.remaining then t.remaining else n)
          (t.remaining - (if n > t.remaining then t.remaining else n)))
        (if n > t.remaining then t.remaining else n),
       { t with
         lastScanAt := some now
         remaining :=
           t.remaining - (if n > t.remaining then t.remaining else n)
         scanCount :=
           t.scanCount + (if n > t.remaining then t.remaining else n)
         status :=
           if t.remaining - (if n > t.remaining then t.remaining else n)
               = 0 then .checkedin
           else t.status }) := rfl

/-- On a non-cancelled ticket with capacity and a valid positive count,
the verify handler reaches the mutation tail. -/
theorem adminVerify_scan_eq (t : Ticket) (n : Int) (now : Nat)
    (hc : t.status ≠ .cancelled) (hr : 0 < t.remaining) (hn : 0 < n) :
    adminVerify t (some n) now =
      ((clampAndCheckIn t n now).1, some (clampAndCheckIn t n now).2) := by
  unfold adminVerify
  rw [if_neg hc, if_neg (not_le.mpr hr)]
  simp only [parseCount, if_neg (by omega : ¬ n ≤ 0)]

/-- Claim C6 (amended): the admit transition is guarded only by
`remaining > 0` and the ticket not being cancelled; the status is not
consulted, so a pending ticket with capacity is admitted exactly like an
approved one, while a cancelled or exhausted ticket is never saved. -/
theorem scan_guard_characterization (t : Ticket) (n : Int) (now : Nat)
    (hn : 0 < n) :
    (t.status ≠ .cancelled → 0 < t.remaining →
      ((adminVerify t (some n) now).2.getD t).scanCount =
        t.scanCount + (if n > t.remaining then t.remaining else n) ∧
      ((adminVerify t (some n) now).2.getD t).remaining =
        t.remaining - (if n > t.remaining then t.remaining else n) ∧
      ∃ msg c, (adminVerify t (some n) now).1 = .checkedIn msg c) ∧
    ((t.status = .cancelled ∨ t.remaining ≤ 0) →
      (adminVerify t (some n) now).2 = none) := by
  constructor
  · intro hc hr
    rw [adminVerify_scan_eq t n now hc hr hn, clampAndCheckIn_eq]
    exact ⟨by simp, by simp, ⟨_, _, rfl⟩⟩
  · intro h
    unfold adminVerify
    by_cases hcan : t.status = .cancelled
    · rw [if_pos hcan]
    · have hr : t.remaining ≤ 0 := by
        rcases h with h | h
        · exact absurd h hcan
        · exact h
      rw [if_neg hcan, if_pos hr]

/-- Claim C6 (witness for the amended theorem): admitting 2 from the
pending `normalCreated`. -/
theorem scan_guard_characterization_witness :
    ((normalCreated.status ≠ .cancelled → 0 < normalCreated.remaining →
      ((adminVerify normalCreated (some 2) 20).2.getD
          normalCreated).scanCount =
        normalCreated.scanCount +
          (if (2 : Int) > normalCreated.remaining then
            normalCreated.remaining else 2) ∧
      ((adminVerify normalCreated (some 2) 20).2.getD
          normalCreated).remaining =
        normalCreated.remaining -
          (if (2 : Int) > normalCreated.remaining then
            normalCreated.remaining else 2) ∧
      ∃ msg c, (adminVerify normalCreated (some 2) 20).1 =
        .checkedIn msg c) ∧
     ((normalCreated.status = .cancelled ∨ normalCreated.remaining ≤ 0) →
      (adminVerify normalCreated (some 2) 20).2 = none)) :=
  scan_guard_characterization normalCreated 2 20 (by decide)

/-- Two verify requests against the same ticket row whose
`findTicketByToken` reads both happen before either `ticket.save()`:
each computes from the same stored snapshot and the second save
overwrites the first (the handler has no locking, transaction or
conditional write). -/
def naiveParallelVerify (t : Ticket) (c1 c2 : Option Int) (n1 n2 : Nat) :
    AdminVerifyOutcome × AdminVerifyOutcome × Ticket :=
  let r1 := adminVerify t c1 n1
  let r2 := adminVerify t c2 n2
  (r1.1, r2.1, (r2.2).getD ((r1.2).getD t))

/-- A ticket with exactly one admission left. -/
def lastSeatTicket : Ticket :=
  { normalCreated with
    status := .approved
    remaining := 1
    scanCount := 2 }

/-- Claim C3 (divergence witness): two concurrent `admit(1)` calls
against `lastSeatTicket` (`remaining = 1`), interleaved as the naive
fetch-then-save allows, BOTH answer `checked_in` — two successes where
the claim demands exactly one success and one `exhausted` rejection —
while the stored `scanCount` rises by only 1. -/
theorem naive_concurrent_scan_double_success :
    (naiveParallelVerify lastSeatTicket (some 1) (some 1) 41 42).1 =
      .checkedIn "Ticket scanned successfully. Let 1 person enter." 1 ∧
    (naiveParallelVerify lastSeatTicket (some 1) (some 1) 41 42).2.1 =
      .checkedIn "Ticket scanned successfully. Let 1 person enter." 1 ∧
    (naiveParallelVerify lastSeatTicket (some 1) (some 1) 41
        42).2.2.scanCount = lastSeatTicket.scanCount + 1 ∧
    (naiveParallelVerify lastSeatTicket (some 1) (some 1) 41
        42).2.2.remaining = 0 := by
  exact ⟨by decide, by decide, by decide, by decide⟩

/-- `parseCount` succeeds only on the literally supplied positive
count. -/
theorem parseCount_eq_some (c : Option Int) (n : Int)
    (h : parseCount c = some n) : c = some n ∧ 0 < n := by
  cases c with
  | none => simp [parseCount] at h
  | some m =>
      simp only [parseCount] at h
      by_cases hm : m ≤ 0
      · simp [hm] at h
      · simp [hm] at h
        exact ⟨by rw [h], by omega⟩

/-- The mutation tail preserves the counter sum, keeps `remaining`
non-negative and non-increasing, and never touches `quantity`,
`vipSeats` or `ticketType`. -/
theorem clampAndCheckIn_counters (t : Ticket) (n : Int) (now : Nat)
    (hr : 0 < t.remaining) (hn : 0 < n) :
    ((clampAndCheckIn t n now).2).remaining +
        ((clampAndCheckIn t n now).2).scanCount =
      t.remaining + t.scanCount ∧
    0 ≤ ((clampAndCheckIn t n now).2).remaining ∧
    ((clampAndCheckIn t n now).2).remaining ≤ t.remaining ∧
    ((clampAndCheckIn t n now).2).quantity = t.quantity ∧
    ((clampAndCheckIn t n now).2).vipSeats = t.vipSeats ∧
    ((clampAndCheckIn t n now).2).ticketType = t.ticketType := by
  rw [clampAndCheckIn_eq]
  refine ⟨?_, ?_, ?_, rfl, rfl, rfl⟩ <;> simp <;> split_ifs <;> omega

/-- The approve handler never touches the capacity counters. -/
theorem approveTicket_counters (t : Ticket) (k : String)
    (mail : MailResult) (r2 fi : Option String) (now : Nat) :
    ((approveTicket t k mail r2 fi now).2).remaining = t.remaining ∧
    ((approveTicket t k mail r2 fi now).2).scanCount = t.scanCount ∧
    ((approveTicket t k mail r2 fi now).2).quantity = t.quantity ∧
    ((approveTicket t k mail r2 fi now).2).vipSeats = t.vipSeats ∧
    ((approveTicket t k mail r2 fi now).2).ticketType = t.ticketType := by
  cases mail <;> cases r2 <;> cases fi <;>
    simp only [approveTicket] <;> split_ifs <;> simp

/-- The cancel handler never touches the capacity counters. -/
theorem cancelTicket_counters (t : Ticket) (k : String) :
    ((cancelTicket t k).2).remaining = t.remaining ∧
    ((cancelTicket t k).2).scanCount = t.scanCount ∧
    ((cancelTicket t k).2).quantity = t.quantity ∧
    ((cancelTicket t k).2).vipSeats = t.vipSeats ∧
    ((cancelTicket t k).2).ticketType = t.ticketType := by
  simp only [cancelTicket]
  split_ifs <;> simp

/-- One operation preserves the counter sum, keeps `remaining` within
`[0, old remaining]`, and fixes `quantity`, `vipSeats`,
`ticketType`. -/
theorem applyOp_counters (t : Ticket) (op : TicketOp)
    (h : 0 ≤ t.remaining) :
    (applyOp t op).remaining + (applyOp t op).scanCount =
      t.remaining + t.scanCount ∧
    0 ≤ (applyOp t op).remaining ∧
    (applyOp t op).remaining ≤ t.remaining ∧
    (applyOp t op).quantity = t.quantity ∧
    (applyOp t op).vipSeats = t.vipSeats ∧
    (applyOp t op).ticketType = t.ticketType := by
  cases op with
  | approve k mail r2 fi now =>
      obtain ⟨e1, e2, e3, e4, e5⟩ := approveTicket_counters t k mail r2 fi now
      exact ⟨by simp [applyOp, e1, e2], by simp [applyOp, e1, h],
        by simp [applyOp, e1], by simp [applyOp, e3],
        by simp [applyOp, e4], by simp [applyOp, e5]⟩
  | cancel k =>
      obtain ⟨e1, e2, e3, e4, e5⟩ := cancelTicket_counters t k
      exact ⟨by simp [applyOp, e1, e2], by simp [applyOp, e1, h],
        by simp [applyOp, e1], by simp [applyOp, e3],
        by simp [applyOp, e4], by simp [applyOp, e5]⟩
  | scan c now =>
      simp only [applyOp]
      by_cases hcan : t.status = .cancelled
      · unfold adminVerify
        rw [if_pos hcan]
        exact ⟨rfl, h, le_refl _, rfl, rfl, rfl⟩
      · by_cases hr : t.remaining ≤ 0
        · unfold adminVerify
          rw [if_neg hcan, if_pos hr]
          exact ⟨rfl, h, le_refl _, rfl, rfl, rfl⟩
        · cases hc : parseCount c with
          | none =>
              by_cases h1 : t.remaining = 1
              · unfold adminVerify
                rw [if_neg hcan, if_neg hr]
                simp only [hc, if_pos h1, Option.getD_some]
                simpa using clampAndCheckIn_counters t 1 now (by omega)
                  (by omega)
              · unfold adminVerify
                rw [if_neg hcan, if_neg hr]
                simp [hc, h1, h]
          | some n =>
              obtain ⟨hceq, hn⟩ := parseCount_eq_some c n hc
              subst hceq
              rw [adminVerify_scan_eq t n now hcan (by omega) hn]
              simpa using clampAndCheckIn_counters t n now (by omega) hn

/-- A sequence of operations preserves the counter sum, keeps
`remaining` within bounds, and fixes `quantity`, `vipSeats`,
`ticketType`. -/
theorem foldOps_counters (ops : List TicketOp) (t : Ticket)
    (h : 0 ≤ t.remaining) :
    (ops.foldl applyOp t).remaining + (ops.foldl applyOp t).scanCount =
      t.remaining + t.scanCount ∧
    0 ≤ (ops.foldl applyOp t).remaining ∧
    (ops.foldl applyOp t).remaining ≤ t.remaining ∧
    (ops.foldl applyOp t).quantity = t.quantity ∧
    (ops.foldl applyOp t).vipSeats = t.vipSeats ∧
    (ops.foldl applyOp t).ticketType = t.ticketType := by
  induction ops generalizing t with
  | nil => exact ⟨rfl, h, le_refl _, rfl, rfl, rfl⟩
  | cons op ops ih =>
      obtain ⟨a1, a2, a3, a4, a5, a6⟩ := applyOp_counters t op h
      obtain ⟨b1, b2, b3, b4, b5, b6⟩ := ih (applyOp t op) a2
      simp only [List.foldl_cons]
      refine ⟨by omega, b2, by omega, ?_, ?_, ?_⟩
      · rw [b4, a4]
      · rw [b5, a5]
      · rw [b6, a6]

/-- Shape of a freshly created ticket row: `scanCount = 0`, status
`pending`, `remaining = quantity` for normal tickets but
`remaining = vipSeats = 5` with `quantity = 1` for VIP tickets. -/
theorem createTicket_ok_fields (env : CreateEnv) (body : TicketBody)
    (t : Ticket) (h : createTicket env body = .ok t) :
    t.scanCount = 0 ∧ 0 ≤ t.remaining ∧ t.status = .pending ∧
    (t.ticketType = .normal → t.remaining = t.quantity) ∧
    (t.ticketType = .vip →
      t.remaining = 5 ∧ t.vipSeats = 5 ∧ t.quantity = 1) := by
  by_cases hempty : body.name = "" ∨ body.email = "" ∨ body.phone = ""
  · simp [createTicket, normalizeTicketInput, hempty] at h
  · by_cases hvip : normalizeType body.ticketType = .vip
    · simp only [createTicket, normalizeTicketInput] at h
      rw [if_neg hempty, if_pos hvip] at h
      simp only [Except.ok.injEq] at h
      subst h
      simp
    · simp only [createTicket, normalizeTicketInput] at h
      rw [if_neg hempty, if_neg hvip] at h
      simp only [Except.ok.injEq] at h
      subst h
      refine ⟨rfl, ?_, rfl, fun _ => rfl, fun hv => absurd hv (by simp)⟩
      cases body.quantity with
      | none => simp
      | some q => simp only []; split_ifs <;> omega

/-- Claim C1 (counterexample): immediately after creating the VIP
ticket `vipRequestBody`, `remaining + scanCount = 5` but `quantity = 1`,
so `remaining + scanCount == quantity` fails and `remaining` exceeds
`quantity`. -/
theorem vip_create_breaks_counter_invariant :
    createTicket sampleEnv vipRequestBody = .ok vipCreated ∧
    vipCreated.remaining + vipCreated.scanCount ≠ vipCreated.quantity ∧
    ¬ vipCreated.remaining ≤ vipCreated.quantity := by
  exact ⟨rfl, by decide, by decide⟩

/-- Claim C1 (amended): after any sequence of approve/cancel/admit
operations on a created ticket, `remaining + scanCount` equals
`quantity` and `0 ≤ remaining ≤ quantity` for normal tickets; for VIP
tickets the conserved total is `vipSeats` (the party size 5) while
`quantity` stays 1. -/
theorem ticket_counter_invariant (env : CreateEnv) (body : TicketBody)
    (t0 : Ticket) (h : createTicket env body = .ok t0)
    (ops : List TicketOp) :
    ((ops.foldl applyOp t0).ticketType = .normal →
      (ops.foldl applyOp t0).remaining +
          (ops.foldl applyOp t0).scanCount =
        (ops.foldl applyOp t0).quantity ∧
      0 ≤ (ops.foldl applyOp t0).remaining ∧
      (ops.foldl applyOp t0).remaining ≤
        (ops.foldl applyOp t0).quantity) ∧
    ((ops.foldl applyOp t0).ticketType = .vip →
      (ops.foldl applyOp t0).remaining +
          (ops.foldl applyOp t0).scanCount =
        (ops.foldl applyOp t0).vipSeats ∧
      0 ≤ (ops.foldl applyOp t0).remaining ∧
      (ops.foldl applyOp t0).remaining ≤
        (ops.foldl applyOp t0).vipSeats ∧
      (ops.foldl applyOp t0).quantity = 1) := by
  obtain ⟨hsc, hr0, hst, hnorm, hvip⟩ := createTicket_ok_fields env body t0 h
  obtain ⟨e1, e2, e3, e4, e5, e6⟩ := foldOps_counters ops t0 hr0
  constructor
  · intro htt
    rw [e6] at htt
    have hq := hnorm htt
    exact ⟨by omega, e2, by omega⟩
  · intro htt
    rw [e6] at htt
    obtain ⟨q1, q2, q3⟩ := hvip htt
    exact ⟨by omega, e2, by omega, by omega⟩

/-- Claim C1 (witness for the amended theorem): `normalRequestBody`
created, then approved, partially admitted and auto-admitted. -/
theorem ticket_counter_invariant_witness :
    (([TicketOp.approve "default" .sent (some "u") none 10,
        TicketOp.scan (some 2) 20,
        TicketOp.scan none 30].foldl applyOp
          normalCreated).ticketType = .normal →
      ([TicketOp.approve "default" .sent (some "u") none 10,
        TicketOp.scan (some 2) 20,
        TicketOp.scan none 30].foldl applyOp normalCreated).remaining +
          ([TicketOp.approve "default" .sent (some "u") none 10,
            TicketOp.scan (some 2) 20,
            TicketOp.scan none 30].foldl applyOp
              normalCreated).scanCount =
        ([TicketOp.approve "default" .sent (some "u") none 10,
          TicketOp.scan (some 2) 20,
          TicketOp.scan none 30].foldl applyOp
            normalCreated).quantity ∧
      0 ≤ ([TicketOp.approve "default" .sent (some "u") none 10,
            TicketOp.scan (some 2) 20,
            TicketOp.scan none 30].foldl applyOp
              normalCreated).remaining ∧
      ([TicketOp.approve "default" .sent (some "u") none 10,
        TicketOp.scan (some 2) 20,
        TicketOp.scan none 30].foldl applyOp normalCreated).remaining ≤
        ([TicketOp.approve "default" .sent (some "u") none 10,
          TicketOp.scan (some 2) 20,
          TicketOp.scan none 30].foldl applyOp
            normalCreated).quantity) ∧
    (([TicketOp.approve "default" .sent (some "u") none 10,
        TicketOp.scan (some 2) 20,
        TicketOp.scan none 30].foldl applyOp
          normalCreated).ticketType = .vip →
      ([TicketOp.approve "default" .sent (some "u") none 10,
        TicketOp.scan (some 2) 20,
        TicketOp.scan none 30].foldl applyOp normalCreated).remaining +
          ([TicketOp.approve "default" .sent (some "u") none 10,
            TicketOp.scan (some 2) 20,
            TicketOp.scan none 30].foldl applyOp
              normalCreated).scanCount =
        ([TicketOp.approve "default" .sent (some "u") none 10,
          TicketOp.scan (some 2) 20,
          TicketOp.scan none 30].foldl applyOp
            normalCreated).vipSeats ∧
      0 ≤ ([TicketOp.approve "default" .sent (some "u") none 10,
            TicketOp.scan (some 2) 20,
            TicketOp.scan none 30].foldl applyOp
              normalCreated).remaining ∧
      ([TicketOp.approve "default" .sent (some "u") none 10,
        TicketOp.scan (some 2) 20,
        TicketOp.scan none 30].foldl applyOp normalCreated).remaining ≤
        ([TicketOp.approve "default" .sent (some "u") none 10,
          TicketOp.scan (some 2) 20,
          TicketOp.scan none 30].foldl applyOp
            normalCreated).vipSeats ∧
      ([TicketOp.approve "default" .sent (some "u") none 10,
        TicketOp.scan (some 2) 20,
        TicketOp.scan none 30].foldl applyOp
          normalCreated).quantity = 1) :=
  ticket_counter_invariant sampleEnv normalRequestBody normalCreated rfl
    [TicketOp.approve "default" .sent (some "u") none 10,
     TicketOp.scan (some 2) 20, TicketOp.scan none 30]

end TicketBackend
